import Mathlib

/-!
Shallow embedding of `src/server.js`, the rate-limit / ban engine of an
Express application, together with theorems checking the specification's
claims about it.

Modelling conventions:
* JS timestamps (`Date.now()`) are `Int` (JS subtraction can go negative).
* A JS value that may be `undefined` is an `Option`; an HTTP header value
  is `Option String` (`none` = header absent / `undefined`).
* JS string truthiness (`if (s)`) is `truthy : Option String → Bool`:
  a present, non-empty string.
* The `Map` `requestTracker` is a function `String → Option Entry`;
  the `Set` `bannedIPs` is a `Finset String`.
* A call to `saveBannedIPs` (a synchronous whole-file write) is counted by
  the `writes` field of the state; the record it writes is `PersistedRecord`.
-/

namespace Server

/-- `const REQUEST_LIMIT = 50` (server.js line 8). -/
def REQUEST_LIMIT : Nat := 50

/-- `const TIME_WINDOW = 60000` (server.js line 10), in milliseconds. -/
def TIME_WINDOW : Int := 60000

/-- The stale threshold `300000` used by the cleanup interval (server.js line 128). -/
def STALE_THRESHOLD : Int := 300000

/-- JS truthiness of a possibly-`undefined` string: `if (s)` is taken iff the
value is present and non-empty. -/
def truthy : Option String → Bool
  | none => false
  | some s => s != ""

/-- JS `String.prototype.trim()`: strip whitespace from both ends
(structural, so that concrete instances evaluate). -/
def jsTrim (s : String) : String :=
  ⟨((s.data.dropWhile Char.isWhitespace).reverse.dropWhile Char.isWhitespace).reverse⟩

/-- JS `str.split(',')`: split on the comma character; like JS, the result
is never empty (`"".split(',')` is `[""]`). -/
def splitComma (s : String) : List String :=
  (s.data.splitOn ',').map (fun l => ⟨l⟩)

/-- The request metadata read by `getRealIP` (server.js lines 51-60): three
headers, and the transport peer address as exposed by `req.socket` and the
legacy alias `req.connection` (each `string | undefined` in Node). -/
structure Request where
  cfConnectingIP : Option String
  xRealIP : Option String
  xForwardedFor : Option String
  socketRemoteAddress : Option String
  connectionRemoteAddress : Option String
deriving DecidableEq, Repr

/-- `getRealIP(req)` (server.js lines 51-60): precedence over identity
sources, with `forwarded.split(',')[0].trim()` for the forwarded-for header
and `req.socket.remoteAddress || req.connection.remoteAddress` as the final
fallback.  The result is `none` exactly when JS would return `undefined`. -/
def getRealIP (req : Request) : Option String :=
  if truthy req.cfConnectingIP then req.cfConnectingIP
  else if truthy req.xRealIP then req.xRealIP
  else if truthy req.xForwardedFor then
    some (jsTrim (splitComma (req.xForwardedFor.getD "")).headI)
  else if truthy req.socketRemoteAddress then req.socketRemoteAddress
  else req.connectionRemoteAddress

/-- A `requestTracker` entry (server.js lines 87-91): `count`,
`firstRequest` (window anchor) and `lastRequest` (last seen). -/
structure Entry where
  count : Nat
  firstRequest : Int
  lastRequest : Int
deriving DecidableEq, Repr

/-- The process-wide mutable state of server.js: the `requestTracker` map,
the `bannedIPs` set, and a counter of `saveBannedIPs` calls (persistence
writes) performed so far. -/
structure ServerState where
  requestTracker : String → Option Entry
  bannedIPs : Finset String
  writes : Nat

/-- The on-disk ban record written by `saveBannedIPs` (server.js lines
38-42): `{ ips, lastUpdated, totalBanned }`. -/
structure PersistedRecord where
  ips : List String
  lastUpdated : String
  totalBanned : Nat
deriving DecidableEq, Repr

/-- The pure content of `saveBannedIPs` (server.js lines 36-48):
`ips = Array.from(bannedIPs)`, `totalBanned = bannedIPs.size`.
`Array.from` enumerates the set in insertion order, which the abstract
`Finset` does not track; we enumerate in sorted order, the same elements. -/
def saveBannedIPs (banned : Finset String) (timestamp : String) : PersistedRecord :=
  { ips := banned.sort (· ≤ ·)
    lastUpdated := timestamp
    totalBanned := banned.card }

/-- `banIP(ip)` (server.js lines 63-69): if not yet banned, add to the set
and call `saveBannedIPs` (counted in `writes`); otherwise do nothing. -/
def banIP (st : ServerState) (ip : String) : ServerState :=
  if ip ∈ st.bannedIPs then st
  else { st with bannedIPs := insert ip st.bannedIPs, writes := st.writes + 1 }

/-- What the persistence file looks like to `loadBannedIPs`: absent,
malformed (JSON.parse throws, or `new Set(banned.ips)` throws because `ips`
is not iterable — both land in the same `catch`), or successfully parsed
with the `ips` field either a string list or absent/falsy
(`banned.ips || []`). -/
inductive BanFile
  | absent
  | malformed (raw : String)
  | parsed (ips : Option (List String))
deriving DecidableEq, Repr

/-- `loadBannedIPs()` (server.js lines 17-33), run at startup when
`bannedIPs = current`: returns the new ban set and whether a persistence
write (`saveBannedIPs`, creating the file) was performed.  Absent file:
keep `current` (empty at startup) and persist it.  Parse success:
`new Set(banned.ips || [])`.  Any failure: `catch` sets the empty set. -/
def loadBannedIPs (file : BanFile) (current : Finset String) : Finset String × Bool :=
  match file with
  | .absent => (current, true)
  | .malformed _ => (∅, false)
  | .parsed ips => ((ips.getD []).toFinset, false)

/-- Reading a `PersistedRecord` back through `loadBannedIPs`'s parse-success
path: `new Set(banned.ips)`. -/
def loadRecord (r : PersistedRecord) : Finset String :=
  (loadBannedIPs (.parsed (some r.ips)) ∅).1

/-- Outcome of the admission middleware for one request (server.js lines
72-121): connection destroyed at the ban check, connection destroyed after
a fresh ban, or `next()` reached. -/
inductive Outcome
  | destroyedBanned
  | destroyedNewBan
  | admitted
deriving DecidableEq, Repr

/-- The admission middleware body (server.js lines 72-121), applied to the
already-resolved identity `ip` at time `now`.  Faithful to the source:
ban check first (destroy, no tracker access); otherwise create the entry
with `count = 1` on first sight (no limit check on this branch), else
reset the window if `now - firstRequest > TIME_WINDOW`, else increment;
set `lastRequest`; then on the existing-entry branch ban and destroy if
`count > REQUEST_LIMIT`. -/
def admissionMiddleware (st : ServerState) (ip : String) (now : Int) :
    ServerState × Outcome :=
  if ip ∈ st.bannedIPs then (st, .destroyedBanned)
  else
    match st.requestTracker ip with
    | none =>
        ({ st with
            requestTracker := fun k =>
              if k = ip then some ⟨1, now, now⟩ else st.requestTracker k },
          .admitted)
    | some t =>
        let t1 : Entry :=
          if now - t.firstRequest > TIME_WINDOW then ⟨1, now, now⟩
          else ⟨t.count + 1, t.firstRequest, now⟩
        let st1 : ServerState :=
          { st with
              requestTracker := fun k =>
                if k = ip then some t1 else st.requestTracker k }
        if t1.count > REQUEST_LIMIT then (banIP st1 ip, .destroyedNewBan)
        else (st1, .admitted)

/-- The cleanup interval body (server.js lines 124-133) at time `now`:
delete every tracker entry with `now - lastRequest > 300000` whose
identity is not banned; `bannedIPs` is untouched. -/
def cleanupTracker (st : ServerState) (now : Int) : ServerState :=
  { st with
      requestTracker := fun ip =>
        match st.requestTracker ip with
        | none => none
        | some t =>
            if now - t.lastRequest > STALE_THRESHOLD ∧ ip ∉ st.bannedIPs then none
            else some t }

/-- The `/admin/unban/:ip` handler (server.js lines 166-175): if banned,
delete from the set and persist (returning success `true`), else no-op
(returning `false`). -/
def unbanHandler (st : ServerState) (ip : String) : ServerState × Bool :=
  if ip ∈ st.bannedIPs then
    ({ st with bannedIPs := st.bannedIPs.erase ip, writes := st.writes + 1 }, true)
  else (st, false)

@[simp] lemma truthy_none : truthy none = false := rfl

@[simp] lemma truthy_some (s : String) : truthy (some s) = (s != "") := rfl

/-- A truthy option holds a value. -/
lemma isSome_of_truthy {x : Option String} (h : truthy x = true) : x.isSome = true := by
  cases x <;> simp [truthy] at *

/-- C4: the Identity Resolver selects by fixed precedence, first present
(non-empty, per JS truthiness) wins: `cf-connecting-ip`, then `x-real-ip`,
then the left-most trimmed entry of `x-forwarded-for`, then the raw
transport peer address; in particular, with both `x-forwarded-for`
`"1.1.1.1, 2.2.2.2"` and `x-real-ip` `"3.3.3.3"` present the result is
`"3.3.3.3"`, and with only forwarded-for present it is `"1.1.1.1"`. -/
theorem getRealIP_precedence (req : Request) :
    (∀ s, req.cfConnectingIP = some s → s ≠ "" → getRealIP req = some s) ∧
    (truthy req.cfConnectingIP = false →
      ∀ s, req.xRealIP = some s → s ≠ "" → getRealIP req = some s) ∧
    (truthy req.cfConnectingIP = false → truthy req.xRealIP = false →
      ∀ s, req.xForwardedFor = some s → s ≠ "" →
        getRealIP req = some (jsTrim (splitComma s).headI)) ∧
    (truthy req.cfConnectingIP = false → truthy req.xRealIP = false →
      truthy req.xForwardedFor = false →
      getRealIP req = (if truthy req.socketRemoteAddress then req.socketRemoteAddress
        else req.connectionRemoteAddress)) ∧
    getRealIP ⟨none, some "3.3.3.3", some "1.1.1.1, 2.2.2.2",
        some "9.9.9.9", some "9.9.9.9"⟩ = some "3.3.3.3" ∧
    getRealIP ⟨none, none, some "1.1.1.1, 2.2.2.2",
        some "9.9.9.9", some "9.9.9.9"⟩ = some "1.1.1.1" := by
  refine ⟨?_, ?_, ?_, ?_, by decide, by decide⟩
  · intro s hs hne
    simp [getRealIP, hs, hne]
  · intro hcf s hs hne
    simp [getRealIP, hcf, hs, hne]
  · intro hcf hr s hs hne
    simp [getRealIP, hcf, hr, hs, hne]
  · intro hcf hr hf
    simp [getRealIP, hcf, hr, hf]

/-- C4 witness: the precedence theorem applied at a concrete request whose
real-IP header is set and trusted-proxy header is absent. -/
theorem getRealIP_precedence_witness :
    getRealIP ⟨none, some "3.3.3.3", some "1.1.1.1, 2.2.2.2",
        some "9.9.9.9", some "9.9.9.9"⟩ = some "3.3.3.3" :=
  (getRealIP_precedence ⟨none, some "3.3.3.3", some "1.1.1.1, 2.2.2.2",
      some "9.9.9.9", some "9.9.9.9"⟩).2.1 (by decide) "3.3.3.3" rfl (by decide)

/-- C5 counterexample: with no headers and no resolvable peer address
(`req.socket.remoteAddress` and `req.connection.remoteAddress` both
`undefined`), `getRealIP` returns `undefined`, a non-string result — the
claim that it never yields a non-string result fails. -/
theorem getRealIP_no_source_is_undefined :
    getRealIP ⟨none, none, none, none, none⟩ = none := rfl

/-- C5 amended: the Identity Resolver is a total, deterministic function; it
produces a string exactly when some identity source is available — a truthy
header, a truthy socket peer address, or a defined `connection.remoteAddress`
— and the runtime's `undefined` (not a string) otherwise. -/
theorem getRealIP_total_characterization (req : Request) :
    (getRealIP req).isSome =
      (truthy req.cfConnectingIP || truthy req.xRealIP || truthy req.xForwardedFor ||
        truthy req.socketRemoteAddress || req.connectionRemoteAddress.isSome) := by
  cases hcf : truthy req.cfConnectingIP <;>
    cases hr : truthy req.xRealIP <;>
      cases hf : truthy req.xForwardedFor <;>
        cases hs : truthy req.socketRemoteAddress <;>
          simp [getRealIP, hcf, hr, hf, hs, isSome_of_truthy]

/-- C6 counterexample: from a state where `"x"` is already banned, calling
`banIP "x"` twice performs zero persistence writes, not exactly one. -/
theorem banIP_twice_already_banned_cex :
    ¬ ((banIP (banIP (ServerState.mk (fun _ => none) {"x"} 0) "x") "x").writes
        = (ServerState.mk (fun _ => none) {"x"} 0).writes + 1) := by
  simp [banIP]

/-- C6 amended: `banIP` is idempotent — a no-op with no persistence write if
the identity is already banned, otherwise it adds the identity and performs
exactly one persistence write; hence two calls from a state where `x` is not
yet banned perform exactly one write in total, two calls from a state where
`x` is already banned perform zero, and in every case the resulting BanSet
is `insert x` of the original (containing `x` exactly once, as a set). -/
theorem banIP_idempotent_spec (st : ServerState) (x : String) :
    banIP (banIP st x) x = banIP st x ∧
    x ∈ (banIP st x).bannedIPs ∧
    (banIP st x).bannedIPs = insert x st.bannedIPs ∧
    (banIP st x).writes = (if x ∈ st.bannedIPs then st.writes else st.writes + 1) := by
  by_cases h : x ∈ st.bannedIPs
  · have hins : insert x st.bannedIPs = st.bannedIPs := Finset.insert_eq_self.2 h
    refine ⟨?_, ?_, ?_, ?_⟩ <;> simp [banIP, h, hins]
  · refine ⟨?_, ?_, ?_, ?_⟩ <;> simp [banIP, h]

/-- C7: persisting a BanSet and loading the record back on a fresh store
reproduces the same set, and the persisted `totalBanned` equals the length
of the persisted `ips` list. -/
theorem persist_load_roundtrip (s : Finset String) (ts : String) :
    loadRecord (saveBannedIPs s ts) = s ∧
    (saveBannedIPs s ts).totalBanned = (saveBannedIPs s ts).ips.length := by
  constructor
  · simp [loadRecord, loadBannedIPs, saveBannedIPs, Finset.sort_toFinset]
  · simp [saveBannedIPs, Finset.length_sort]

/-- C8: `loadBannedIPs` fails safe — at startup (current set empty), an
absent file yields the empty BanSet and an immediate persistence write that
creates the file; a present-but-malformed file, for every malformed content
and any current set, yields the empty BanSet with no crash (the function is
total); and so does a parse that finds no usable `ips` field. -/
theorem loadBannedIPs_fail_safe :
    loadBannedIPs .absent ∅ = (∅, true) ∧
    (∀ (raw : String) (cur : Finset String),
      loadBannedIPs (.malformed raw) cur = (∅, false)) ∧
    (∀ cur : Finset String, loadBannedIPs (.parsed none) cur = (∅, false)) := by
  refine ⟨rfl, fun raw cur => rfl, fun cur => rfl⟩

/-- C1: for an identity with an existing tracker entry whose window has not
expired and which is not banned, the middleware increments the count and
then admits iff the updated count is at most `REQUEST_LIMIT` and
ban-and-destroys iff it exceeds it (so with LIMIT = 50 the request taking
the count to 50 is admitted and the one taking it to 51 is banned), with
the newly banned identity placed in the ban set. -/
theorem admission_limit_boundary (st : ServerState) (ip : String) (now : Int)
    (t : Entry) (hb : ip ∉ st.bannedIPs) (ht : st.requestTracker ip = some t)
    (hw : ¬ (now - t.firstRequest > TIME_WINDOW)) :
    ((admissionMiddleware st ip now).2 = .admitted ↔ t.count + 1 ≤ REQUEST_LIMIT) ∧
    ((admissionMiddleware st ip now).2 = .destroyedNewBan ↔
      t.count + 1 > REQUEST_LIMIT) ∧
    (admissionMiddleware st ip now).1.requestTracker ip =
      some ⟨t.count + 1, t.firstRequest, now⟩ ∧
    (t.count + 1 > REQUEST_LIMIT →
      ip ∈ (admissionMiddleware st ip now).1.bannedIPs) := by
  by_cases hlim : t.count + 1 > REQUEST_LIMIT
  · refine ⟨?_, ?_, ?_, ?_⟩ <;>
      simp [admissionMiddleware, hb, ht, hw, hlim, banIP] <;> omega
  · refine ⟨?_, ?_, ?_, ?_⟩ <;>
      simp [admissionMiddleware, hb, ht, hw, hlim, banIP] <;> omega

/-- C1 witness: at a concrete non-banned identity with an in-window entry,
the request taking the count from 49 to 50 is admitted, and the one taking
it from 50 to 51 is ban-and-destroyed. -/
theorem admission_limit_boundary_witness :
    (admissionMiddleware
      ⟨fun k => if k = "a" then some ⟨49, 0, 0⟩ else none, ∅, 0⟩ "a" 1).2
        = .admitted ∧
    (admissionMiddleware
      ⟨fun k => if k = "a" then some ⟨50, 0, 0⟩ else none, ∅, 0⟩ "a" 1).2
        = .destroyedNewBan :=
  ⟨(admission_limit_boundary _ "a" 1 ⟨49, 0, 0⟩ (by simp) (by simp)
      (by decide)).1.mpr (by decide),
   (admission_limit_boundary _ "a" 1 ⟨50, 0, 0⟩ (by simp) (by simp)
      (by decide)).2.1.mpr (by decide)⟩

/-- C2: a request whose resolved identity is already in the ban set is
destroyed with the state — in particular every tracker entry — completely
unchanged, and any number of further requests from that identity leave the
state fixed: banned identities never create, increment, window-reset or
lastSeen-refresh a tracker entry. -/
theorem admission_banned_bypasses_tracker (st : ServerState) (ip : String)
    (hb : ip ∈ st.bannedIPs) :
    (∀ now, admissionMiddleware st ip now = (st, .destroyedBanned)) ∧
    (∀ times : List Int,
      times.foldl (fun s t => (admissionMiddleware s ip t).1) st = st) := by
  have h1 : ∀ now, admissionMiddleware st ip now = (st, .destroyedBanned) :=
    fun now => by simp [admissionMiddleware, hb]
  refine ⟨h1, ?_⟩
  intro times
  induction times with
  | nil => rfl
  | cons a l ih =>
      rw [List.foldl_cons]
      have ha : (admissionMiddleware st ip a).1 = st := by rw [h1 a]
      rw [ha, ih]

/-- C2 witness: at a concrete banned identity, the middleware returns the
unchanged state and the banned-destroy outcome. -/
theorem admission_banned_bypasses_tracker_witness :
    admissionMiddleware ⟨fun _ => none, {"b"}, 0⟩ "b" 5
      = (⟨fun _ => none, {"b"}, 0⟩, .destroyedBanned) :=
  (admission_banned_bypasses_tracker ⟨fun _ => none, {"b"}, 0⟩ "b" (by simp)).1 5

/-- C3: for a non-banned identity the middleware maintains a tumbling
window: first-ever request at `now` creates `⟨1, now, now⟩`; a later
request re-anchors to `⟨1, now, now⟩` when `now - windowStart` exceeds
`TIME_WINDOW` and otherwise increments the count keeping the anchor;
`lastSeen` is set to `now` in every case; concretely, a first request at 0
followed by one at `TIME_WINDOW + 1` yields count 1 again. -/
theorem admission_tracker_update (st : ServerState) (ip : String) (now : Int)
    (hb : ip ∉ st.bannedIPs) :
    ((admissionMiddleware st ip now).1.requestTracker ip =
      some (match st.requestTracker ip with
        | none => ⟨1, now, now⟩
        | some t =>
            if now - t.firstRequest > TIME_WINDOW then ⟨1, now, now⟩
            else ⟨t.count + 1, t.firstRequest, now⟩)) ∧
    (∀ e, (admissionMiddleware st ip now).1.requestTracker ip = some e →
      e.lastRequest = now) ∧
    ((admissionMiddleware
        (admissionMiddleware ⟨fun _ => none, ∅, 0⟩ "a" 0).1 "a"
        (TIME_WINDOW + 1)).1.requestTracker "a"
      = some ⟨1, TIME_WINDOW + 1, TIME_WINDOW + 1⟩) := by
  have hmain : (admissionMiddleware st ip now).1.requestTracker ip =
      some (match st.requestTracker ip with
        | none => ⟨1, now, now⟩
        | some t =>
            if now - t.firstRequest > TIME_WINDOW then ⟨1, now, now⟩
            else ⟨t.count + 1, t.firstRequest, now⟩) := by
    cases ht : st.requestTracker ip with
    | none => simp [admissionMiddleware, hb, ht]
    | some t =>
        by_cases hw : now - t.firstRequest > TIME_WINDOW
        · simp [admissionMiddleware, hb, ht, hw, REQUEST_LIMIT]
        · by_cases hlim : t.count + 1 > REQUEST_LIMIT <;>
            simp [admissionMiddleware, hb, ht, hw, hlim, banIP]
  refine ⟨hmain, ?_, by decide⟩
  intro e he
  rw [hmain] at he
  obtain rfl := (Option.some.inj he).symm
  rcases st.requestTracker ip with _ | t
  · rfl
  · by_cases hw : now - t.firstRequest > TIME_WINDOW <;> simp [hw]

/-- C3 witness: a first-ever request at time 7 creates the entry
`⟨1, 7, 7⟩`. -/
theorem admission_tracker_update_witness :
    (admissionMiddleware ⟨fun _ => none, ∅, 0⟩ "a" 7).1.requestTracker "a"
      = some ⟨1, 7, 7⟩ :=
  (admission_tracker_update ⟨fun _ => none, ∅, 0⟩ "a" 7 (by simp)).1

/-- C9: one reaper pass at `now` removes the entry of identity `ip` iff
`now - lastSeen` exceeds the stale threshold and `ip` is not banned
(otherwise the entry is kept unchanged), and the pass never changes the
ban set. -/
theorem cleanup_reap_iff (st : ServerState) (now : Int) (ip : String)
    (t : Entry) (ht : st.requestTracker ip = some t) :
    ((cleanupTracker st now).requestTracker ip = none ↔
      (now - t.lastRequest > STALE_THRESHOLD ∧ ip ∉ st.bannedIPs)) ∧
    ((cleanupTracker st now).requestTracker ip = some t ↔
      ¬ (now - t.lastRequest > STALE_THRESHOLD ∧ ip ∉ st.bannedIPs)) ∧
    (cleanupTracker st now).bannedIPs = st.bannedIPs := by
  refine ⟨?_, ?_, rfl⟩ <;>
    by_cases hc : now - t.lastRequest > STALE_THRESHOLD ∧ ip ∉ st.bannedIPs <;>
      simp [cleanupTracker, ht, hc]

/-- C9 witness: a concrete stale, non-banned entry is removed by the pass;
a concrete stale but banned entry is kept, and the ban set is unchanged. -/
theorem cleanup_reap_iff_witness :
    (cleanupTracker
      ⟨fun k => if k = "a" then some ⟨3, 0, 0⟩ else none, ∅, 0⟩
      300001).requestTracker "a" = none ∧
    (cleanupTracker
      ⟨fun k => if k = "a" then some ⟨3, 0, 0⟩ else none, {"a"}, 0⟩
      300001).requestTracker "a" = some ⟨3, 0, 0⟩ ∧
    (cleanupTracker
      ⟨fun k => if k = "a" then some ⟨3, 0, 0⟩ else none, {"a"}, 0⟩
      300001).bannedIPs = {"a"} :=
  ⟨(cleanup_reap_iff _ 300001 "a" ⟨3, 0, 0⟩ (by simp)).1.mpr
      ⟨by decide, by simp⟩,
   (cleanup_reap_iff _ 300001 "a" ⟨3, 0, 0⟩ (by simp)).2.1.mpr
      (fun h => h.2 (by simp)),
   (cleanup_reap_iff
      ⟨fun k => if k = "a" then some ⟨3, 0, 0⟩ else none, {"a"}, 0⟩
      300001 "a" ⟨3, 0, 0⟩ (by simp)).2.2⟩

/-- C10: the unban handler leaves the request tracker untouched (mutating
only the ban set, with a persistence write exactly when a removal occurs),
and if the retained entry of the unbanned identity still has
`count ≥ REQUEST_LIMIT`, its very next request within the window of that
entry's anchor is ban-and-destroyed again by the single increment. -/
theorem unban_frame_and_reban (st : ServerState) (x : String) :
    (unbanHandler st x).1.requestTracker = st.requestTracker ∧
    (unbanHandler st x).1.bannedIPs = st.bannedIPs.erase x ∧
    (unbanHandler st x).1.writes =
      (if x ∈ st.bannedIPs then st.writes + 1 else st.writes) ∧
    (∀ t now, st.requestTracker x = some t → REQUEST_LIMIT ≤ t.count →
      now - t.firstRequest ≤ TIME_WINDOW →
      (admissionMiddleware (unbanHandler st x).1 x now).2 = .destroyedNewBan ∧
      x ∈ (admissionMiddleware (unbanHandler st x).1 x now).1.bannedIPs) := by
  have htr : (unbanHandler st x).1.requestTracker = st.requestTracker := by
    by_cases h : x ∈ st.bannedIPs <;> simp [unbanHandler, h]
  have hbs : (unbanHandler st x).1.bannedIPs = st.bannedIPs.erase x := by
    by_cases h : x ∈ st.bannedIPs <;>
      simp [unbanHandler, h, Finset.erase_eq_of_not_mem]
  have hnb : x ∉ (unbanHandler st x).1.bannedIPs := by
    rw [hbs]; exact Finset.not_mem_erase x _
  refine ⟨htr, hbs, ?_, ?_⟩
  · by_cases h : x ∈ st.bannedIPs <;> simp [unbanHandler, h]
  · intro t now h1 h2 h3
    have hw : ¬ (now - t.firstRequest > TIME_WINDOW) := not_lt.mpr h3
    have hlim : t.count + 1 > REQUEST_LIMIT := Nat.lt_succ_of_le h2
    constructor <;> simp [admissionMiddleware, hnb, htr, h1, hw, hlim, banIP]

/-- C10 witness: a concrete banned identity with a retained in-window entry
of count 50 is, immediately after unban, banned and destroyed again on its
next request. -/
theorem unban_frame_and_reban_witness :
    (admissionMiddleware
      (unbanHandler
        ⟨fun k => if k = "u" then some ⟨50, 0, 0⟩ else none, {"u"}, 0⟩ "u").1
      "u" 10).2 = .destroyedNewBan :=
  ((unban_frame_and_reban
      ⟨fun k => if k = "u" then some ⟨50, 0, 0⟩ else none, {"u"}, 0⟩
      "u").2.2.2 ⟨50, 0, 0⟩ 10 (by simp) (by decide) (by decide)).1

end Server
